import Mathlib

/-!
Verification of the hanser-py-library book-acquisition pipeline.

This file contains a shallow embedding, in Lean, of the parts of the
repository that the specification's claims are about:

* `is_isbn` — the ISBN-10/13 checksum validator
  (hanser_py_library/core/utils.py and hanser_py_library/utils.py,
  which contain the identical function);
* `is_application_url` — catalog-URL validation and normalization
  (hanser_py_library/entrypoints/hanser.py, MainParser.is_application_url);
* `make_book` — the metadata resolver (hanser_py_library/hanser.py,
  BookParser.make_book);
* `download_chapter_step` / `download_book` — the per-chapter PDF fetch
  loop (hanser_py_library/hanser.py, Application.download_book);
* `merge_and_write_pdf` — merge and persist with filename fallback
  (hanser_py_library/hanser.py, Application.merge_and_write_pdf and
  Application._write_pdf);
* `append_file_count` — the collision-renaming loop
  (hanser_py_library/core/utils.py, PdfManager.append_file_count).

Python strings are modeled as Lean `String`s (or `List Char` where
character surgery is needed); machine-level details (actual file IO,
HTTP, PDF parsing) are modeled by explicit oracles ("what does the OS
answer when this path is written", "what response does this URL
return"), so that every function is executable and every control-flow
decision of the source is reproduced.
-/

set_option maxRecDepth 10000

/-- Numeric value of an ASCII digit character; models Python `int(c)` for a
single digit character `c`. -/
def digitVal (c : Char) : Nat := c.toNat - 48

/-- Python `str.isnumeric()` restricted to ASCII digits: true exactly on
nonempty all-digit strings. -/
def pyIsNumeric (cs : List Char) : Bool := !cs.isEmpty && cs.all Char.isDigit

/-- Weighted sum of the 13-digit branch of `is_isbn`:
`sum(int(n) * (3 ** (i % 2)) for i, n in enumerate(isbn))`. -/
def isbn13sum (cs : List Char) : Nat :=
  (cs.enum.map (fun p => digitVal p.2 * 3 ^ (p.1 % 2))).sum

/-- Positional sum of the 10-character branch of `is_isbn`:
`sum(int(n) * i for i, n in enumerate(isbn_parts, 1))`. -/
def isbn10sum (vals : List Nat) : Nat :=
  (vals.enum.map (fun p => (p.1 + 1) * p.2)).sum

/-- Core of `is_isbn` over the string's character list.  The branches
mirror the source: 13-digit numeric strings use the alternating mod-10
checksum, 10-character strings whose first nine characters are digits use
the ascending positional mod-11 checksum with a final `x`/`X` counting as
10, and every other shape returns `false`. -/
def is_isbnL (cs : List Char) (isbn10_allowed : Bool) : Bool :=
  if cs.length == 13 && pyIsNumeric cs then
    (10 - isbn13sum cs % 10) % 10 == 0
  else if cs.length == 10 && pyIsNumeric cs.dropLast && isbn10_allowed then
    -- the check character is `isbn_parts[-1]`; the guard makes the list
    -- ten characters long, so `getLast?` is always `some`
    if (cs.getLast?.getD ' ').isDigit then
      isbn10sum (cs.map digitVal) % 11 == 0
    else if cs.getLast?.getD ' ' = 'x' || cs.getLast?.getD ' ' = 'X' then
      isbn10sum (cs.dropLast.map digitVal ++ [10]) % 11 == 0
    else false
  else false

/-- Embedding of `is_isbn` from `hanser_py_library/core/utils.py` (the same
function also appears verbatim in `hanser_py_library/utils.py`). -/
def is_isbn (isbn : String) (isbn10_allowed : Bool) : Bool :=
  is_isbnL isbn.data isbn10_allowed

/-- The 13-digit condition of claim C1, written following the claim's words:
a 13-digit numeric string whose alternating-weight (1,3) sum is divisible
by 10. -/
def claimIsbn13 (cs : List Char) : Bool :=
  cs.length == 13 && cs.all Char.isDigit &&
    (cs.enum.map (fun p => (if p.1 % 2 = 0 then 1 else 3) * digitVal p.2)).sum % 10 == 0

/-- Value of the ISBN-10 check character per the claim's words: a digit, or
`X`/`x` meaning 10. -/
def claimCheckVal (c : Char) : Option Nat :=
  if c.isDigit then some (digitVal c)
  else if c = 'X' || c = 'x' then some 10
  else none

/-- The 10-character condition of claim C1, written following the claim's
words: 9 digits plus a check character whose positional-weight (1..10) sum
is divisible by 11. -/
def claimIsbn10 (cs : List Char) : Bool :=
  cs.length == 10 && cs.dropLast.all Char.isDigit &&
    (match claimCheckVal (cs.getLast?.getD ' ') with
     | none => false
     | some v => isbn10sum (cs.dropLast.map digitVal ++ [v]) % 11 == 0)

/-- The full validity condition of claim C1 as amended, over the character
list: the string itself (no hyphen stripping happens inside `is_isbn`) is a
valid ISBN-13, or ISBN-10 validation is allowed and it is a valid
ISBN-10. -/
def validISBNclaimL (cs : List Char) (allow10 : Bool) : Bool :=
  claimIsbn13 cs || (allow10 && claimIsbn10 cs)

/-- String-level wrapper for the claim-side validity condition. -/
def validISBNclaim (s : String) (allow10 : Bool) : Bool :=
  validISBNclaimL s.data allow10

theorem isbn13sum_eq_claim (cs : List Char) :
    isbn13sum cs
      = (cs.enum.map (fun p => (if p.1 % 2 = 0 then 1 else 3) * digitVal p.2)).sum := by
  unfold isbn13sum
  congr 1
  apply List.map_congr_left
  intro p _
  rcases Nat.mod_two_eq_zero_or_one p.1 with h | h <;>
    simp [h, pow_succ, Nat.mul_comm]

theorem isbn13_checksum_iff (n : Nat) :
    (((10 - n % 10) % 10 == 0) = true) ↔ (n % 10 = 0) := by
  have h : n % 10 < 10 := Nat.mod_lt _ (by norm_num)
  rw [beq_iff_eq]
  omega

theorem is_isbnL_eq_claim (cs : List Char) (allow10 : Bool) :
    is_isbnL cs allow10 = validISBNclaimL cs allow10 := by
  by_cases h13 : cs.length = 13
  · -- the 13-digit branch of the source
    have hne : cs ≠ [] := by
      intro h; rw [h] at h13; simp at h13
    have hemp : cs.isEmpty = false := by
      cases cs with
      | nil => simp at h13
      | cons a l => rfl
    have h10f : (cs.length == 10) = false := by simp [h13]
    by_cases hdig : cs.all Char.isDigit
    · have hcond : (cs.length == 13 && pyIsNumeric cs) = true := by
        simp [pyIsNumeric, h13, hemp, hdig]
      have hclaim10 : claimIsbn10 cs = false := by
        simp [claimIsbn10, h10f]
      rw [is_isbnL, if_pos hcond, validISBNclaimL, hclaim10, Bool.and_false,
        Bool.or_false, claimIsbn13, ← isbn13sum_eq_claim]
      simp only [h13, beq_self_eq_true, hdig, Bool.true_and]
      by_cases hz : isbn13sum cs % 10 = 0
      · rw [(isbn13_checksum_iff _).2 hz, hz]
        simp
      · have h1 : ((10 - isbn13sum cs % 10) % 10 == 0) = false := by
          cases hb : ((10 - isbn13sum cs % 10) % 10 == 0) with
          | false => rfl
          | true => exact absurd ((isbn13_checksum_iff _).1 hb) hz
        have h2 : (isbn13sum cs % 10 == 0) = false := by simp [hz]
        rw [h1, h2]
    · -- length 13 but not all digits: both sides false
      have hcond : (cs.length == 13 && pyIsNumeric cs) = false := by
        simp [pyIsNumeric, hdig]
      have hcond2 : (cs.length == 10 && pyIsNumeric cs.dropLast && allow10) = false := by
        simp [h10f]
      rw [is_isbnL, if_neg (by simp [hcond]), if_neg (by simp [hcond2])]
      simp [validISBNclaimL, claimIsbn13, claimIsbn10, hdig, h10f]
  · -- length is not 13
    have h13f : (cs.length == 13) = false := by simp [h13]
    have hclaim13 : claimIsbn13 cs = false := by simp [claimIsbn13, h13f]
    by_cases h10 : cs.length = 10
    · have hne : cs ≠ [] := by
        intro h; rw [h] at h10; simp at h10
      have hdlen : cs.dropLast.length = 9 := by
        rw [List.length_dropLast, h10]
      have hdlne : cs.dropLast ≠ [] := by
        intro h; rw [h] at hdlen; simp at hdlen
      have hdemp : cs.dropLast.isEmpty = false := by
        cases hd : cs.dropLast with
        | nil => exact absurd hd hdlne
        | cons a l => rfl
      by_cases hdig : cs.dropLast.all Char.isDigit
      · cases allow10 with
        | false =>
          have hcond2 : (cs.length == 10 && pyIsNumeric cs.dropLast && false) = false := by
            simp
          rw [is_isbnL, if_neg (by simp [h13f]), if_neg (by simp [hcond2])]
          simp [validISBNclaimL, hclaim13]
        | true =>
          have hcond2 : (cs.length == 10 && pyIsNumeric cs.dropLast && true) = true := by
            simp [pyIsNumeric, h10, hdemp, hdig]
          rw [is_isbnL, if_neg (by simp [h13f]), if_pos hcond2]
          rw [validISBNclaimL, hclaim13, Bool.false_or, Bool.true_and,
            claimIsbn10]
          simp only [h10, beq_self_eq_true, hdig, Bool.true_and]
          have hlast : cs.getLast? = some (cs.getLast hne) :=
            List.getLast?_eq_getLast_of_ne_nil hne
          rw [hlast, Option.getD_some]
          set c := cs.getLast hne with hc
          have hsplit : cs.dropLast ++ [c] = cs :=
            List.dropLast_append_getLast hne
          by_cases hcd : c.isDigit
          · have hmap : cs.map digitVal
                = cs.dropLast.map digitVal ++ [digitVal c] := by
              conv_lhs => rw [← hsplit]
              simp
            rw [if_pos hcd, hmap]
            simp [claimCheckVal, hcd]
          · rw [if_neg hcd]
            by_cases hx : c = 'x' ∨ c = 'X'
            · have hcx : (c = 'x' || c = 'X') = true := by
                rcases hx with h | h <;> simp [h]
              rw [if_pos (by simp [hcx])]
              rcases hx with h | h <;> simp [claimCheckVal, hcd, h]
            · push_neg at hx
              have hcx : (c = 'x' || c = 'X') = false := by
                simp [hx.1, hx.2]
              rw [if_neg (by simp [hcx])]
              simp [claimCheckVal, hcd, hx.1, hx.2]
      · have hcond2 : (cs.length == 10 && pyIsNumeric cs.dropLast && allow10) = false := by
          simp [pyIsNumeric, hdig]
        rw [is_isbnL, if_neg (by simp [h13f]), if_neg (by simp [hcond2])]
        simp [validISBNclaimL, hclaim13, claimIsbn10, hdig]
    · have h10f : (cs.length == 10) = false := by simp [h10]
      have hcond2 : (cs.length == 10 && pyIsNumeric cs.dropLast && allow10) = false := by
        simp [h10f]
      rw [is_isbnL, if_neg (by simp [h13f]), if_neg (by simp [hcond2])]
      simp [validISBNclaimL, hclaim13, claimIsbn10, h10f]

/-- Counterexample to claim C1 as stated.  The claim asserts that
`"3446450526"` and `"044925389X"` are accepted (both fail the mod-11
checksum: their positional sums are 215 and 362, neither divisible by 11),
and that hyphens are stripped before validation (they are not: the
hyphenated form of the valid ISBN-13 `"9783446450523"` is rejected because
its length is neither 13 nor 10). -/
theorem C1_counterexample :
    is_isbn "3446450526" true = false ∧
    is_isbn "044925389X" true = false ∧
    is_isbn "978-3-446-45052-3" true = false ∧
    is_isbn "9783446450523" true = true := by
  refine ⟨by decide, by decide, by decide, by decide⟩

/-- Claim C1 as amended: `is_isbn` returns true exactly when the string
itself (hyphens are not stripped) is a 13-digit numeric string whose
alternating-weight (1,3) sum is divisible by 10, or (when ISBN-10 is
allowed) a 10-character string of 9 digits plus a check character (digit or
`X`/`x` meaning 10) whose positional-weight (1..10) sum is divisible by 11;
it returns false for every other shape and whenever ISBN-10 is disallowed.
Examples: `"9783446450523"` yields true, `"9783446450524"` false,
`"3446450526"` false (sum 215), `"044925389X"` false (sum 362),
`"0449253890"` false, and `"3446450521"` (the actual ISBN-10 of the
catalog's example book) true — but false when ISBN-10 is disallowed. -/
theorem C1_amended :
    (∀ (s : String) (allow10 : Bool), is_isbn s allow10 = validISBNclaim s allow10) ∧
    is_isbn "9783446450523" true = true ∧
    is_isbn "9783446450524" true = false ∧
    is_isbn "3446450526" true = false ∧
    is_isbn "044925389X" true = false ∧
    is_isbn "0449253890" true = false ∧
    is_isbn "3446450521" true = true ∧
    is_isbn "3446450521" false = false := by
  refine ⟨fun s allow10 => is_isbnL_eq_claim s.data allow10, by decide, by decide,
    by decide, by decide, by decide, by decide, by decide⟩

/-- Python exceptions raised by the embedded code: the four application
error kinds from `hanser_py_library/exceptions.py`, `ArgumentTypeError`
from argparse validation, and the builtin `IndexError` and OS errors that
the source can let escape. -/
inductive PyExc where
  | accessError (msg : String)
  | metaError (msg : String)
  | downloadError (msg : String)
  | mergeError (msg : String)
  | argumentTypeError (msg : String)
  | indexError (msg : String)
  | osError (kind : String)
  deriving Repr, DecidableEq

/-- Python `str.strip()`: remove leading and trailing whitespace. -/
def pyStrip (s : String) : String :=
  ⟨((s.data.dropWhile Char.isWhitespace).reverse.dropWhile Char.isWhitespace).reverse⟩

/-- Python `s.split(sep, 1)` when `sep` occurs: the parts before and after
the first occurrence; `none` when `sep` does not occur. -/
def splitFirst (sep : Char) : List Char → Option (List Char × List Char)
  | [] => none
  | c :: cs =>
    if c = sep then some ([], cs)
    else (splitFirst sep cs).map (fun p => (c :: p.1, p.2))

/-- Python `s.split(sep)` (full split, empty parts kept). -/
def splitAll (sep : Char) : List Char → List (List Char)
  | [] => [[]]
  | c :: cs =>
    if c = sep then [] :: splitAll sep cs
    else
      match splitAll sep cs with
      | [] => [[c]]
      | a :: rest => (c :: a) :: rest

/-- Scheme, network location and path of a parsed URL (query, fragment and
params are absent from every URL this application handles). -/
structure UrlParts where
  scheme : String
  netloc : String
  path : String
  deriving Repr, DecidableEq

/-- The canonical catalog host, `HANSER_URL` from
`hanser_py_library/core/utils.py`. -/
def HANSER_URL : String := "https://www.hanser-elibrary.com"

/-- Restricted model of `urllib.parse.urlparse` covering URL shapes without
query, fragment or params — the shapes this application handles.  An
`https://` or `http://` prefix becomes the scheme, the segment up to the
next slash the network location and the remainder (with its leading slash)
the path; any other input is a scheme-less, location-less path, exactly as
`urlparse` treats strings such as `"isbn/9783446450523"` or
`"www.hanser-elibrary.com/isbn/9783446450523"`. -/
def urlparse (s : String) : UrlParts :=
  if "https://".data.isPrefixOf s.data then
    match splitFirst '/' (s.data.drop 8) with
    | some p => ⟨"https", ⟨p.1⟩, ⟨'/' :: p.2⟩⟩
    | none => ⟨"https", ⟨s.data.drop 8⟩, ""⟩
  else if "http://".data.isPrefixOf s.data then
    match splitFirst '/' (s.data.drop 7) with
    | some p => ⟨"http", ⟨p.1⟩, ⟨'/' :: p.2⟩⟩
    | none => ⟨"http", ⟨s.data.drop 7⟩, ""⟩
  else ⟨"", "", s⟩

/-- Restricted model of `ParseResult.geturl` / `urlunparse` for the parts
`is_application_url` produces: when the path does not begin with a slash,
`urlunparse` inserts one after the nonempty network location. -/
def geturl (u : UrlParts) : String :=
  u.scheme ++ "://" ++ u.netloc ++ (if u.path = "" then "" else "/" ++ u.path)

/-- Embedding of `MainParser.is_application_url` from
`hanser_py_library/entrypoints/hanser.py`: strip the input, parse it,
rebuild scheme/netloc/path when the scheme is missing or not `https`,
reject any host other than the canonical one (with or without the `www.`
prefix), require exactly 2 (`isbn/...`) or 4 (`doi/book/...`) nonempty
path segments, validate the trailing segment's ISBN checksum (ISBN-10
permitted only in the 2-segment form), and return the rebuilt URL. -/
def is_application_url (url : String) : Except PyExc String :=
  let hanser := urlparse HANSER_URL
  let parsed0 := urlparse (pyStrip url)
  let parsed :=
    if parsed0.scheme ≠ hanser.scheme then
      let p1 :=
        if parsed0.scheme = "" then
          match splitFirst '/' parsed0.path.data with
          | some q => { parsed0 with netloc := ⟨q.1⟩, path := ⟨q.2⟩ }
          | none => { parsed0 with netloc := parsed0.path, path := "" }
        else parsed0
      { p1 with scheme := "https" }
    else parsed0
  if parsed.netloc ≠ hanser.netloc ∧ parsed.netloc ≠ ⟨hanser.netloc.data.drop 4⟩ then
    .error (.argumentTypeError ("Invalid Location: " ++ parsed.netloc))
  else
    let path_list := (splitAll '/' parsed.path.data).filter (fun e => !e.isEmpty)
    let path_str : String := ⟨(List.intersperse ['/'] path_list).flatten⟩
    let elements := path_list.length
    if elements ≠ 2 ∧ elements ≠ 4 then
      .error (.argumentTypeError ("invalid amount of path elements in '" ++ path_str ++ "'"))
    else if elements = 4 ∧ ¬ ("doi/book/".data.isPrefixOf path_str.data) then
      .error (.argumentTypeError
        ("path must start with 'doi/book/<DOI>' not '" ++ path_str ++ "'"))
    else if elements = 2 ∧ (⟨path_list.headI⟩ : String) ≠ "isbn" then
      .error (.argumentTypeError
        ("path must start with 'isbn' not '" ++ (⟨path_list.headI⟩ : String) ++ "'"))
    else
      let allow10 := elements == 2
      let lastSeg : String := ⟨path_list.getLast?.getD []⟩
      if is_isbn lastSeg allow10 = false then
        .error (.argumentTypeError
          ("url end " ++ lastSeg ++ " returns invalid ISBN checksum"))
      else
        .ok (geturl { parsed with path := path_str })

instance exceptDecEq {ε α : Type} [DecidableEq ε] [DecidableEq α] :
    DecidableEq (Except ε α) := fun a b =>
  match a, b with
  | .error e, .error f =>
    decidable_of_iff (e = f)
      ⟨fun h => by rw [h], fun h => by injection h⟩
  | .ok x, .ok y =>
    decidable_of_iff (x = y)
      ⟨fun h => by rw [h], fun h => by injection h⟩
  | .error _, .ok _ => isFalse (fun h => Except.noConfusion h)
  | .ok _, .error _ => isFalse (fun h => Except.noConfusion h)

/-- Counterexample to claim C2 as stated: for the host-less input
`"isbn/9783446450523"` the parser takes the first path segment as the
network location, so validation fails with an Invalid Location error
instead of returning the canonical URL. -/
theorem C2_counterexample :
    is_application_url "isbn/9783446450523"
      = .error (.argumentTypeError "Invalid Location: isbn") := by
  decide

/-- Claim C2 as amended: an input with a missing scheme is normalized by
inferring `https` only when the input includes the catalog host (with or
without the `www.` prefix) as its first segment; the host-less input
`"isbn/9783446450523"` is instead rejected with an Invalid Location error
naming its first segment, because `urlparse` leaves the whole string in
the path and the parser then takes the first path segment as the host. -/
theorem C2_amended :
    is_application_url "www.hanser-elibrary.com/isbn/9783446450523"
      = .ok "https://www.hanser-elibrary.com/isbn/9783446450523" ∧
    is_application_url "hanser-elibrary.com/isbn/9783446450523"
      = .ok "https://hanser-elibrary.com/isbn/9783446450523" ∧
    is_application_url "https://www.hanser-elibrary.com/isbn/9783446450523"
      = .ok "https://www.hanser-elibrary.com/isbn/9783446450523" ∧
    is_application_url "isbn/9783446450523"
      = .error (.argumentTypeError "Invalid Location: isbn") := by
  refine ⟨by decide, by decide, by decide, by decide⟩

/-- The `Chapter` dataclass from `hanser_py_library/hanser.py`: title,
optional href and optional downloaded PDF payload (a byte list). -/
structure Chapter where
  title : String
  href : Option String := none
  content : Option (List Nat) := none
  deriving Repr, DecidableEq

/-- The `Book` dataclass from `hanser_py_library/hanser.py`: url, the
formatted author string, the chapter list, isbn and title. -/
structure Book where
  url : String
  authors : String
  chapters : List Chapter
  isbn : String
  title : String
  deriving Repr, DecidableEq

/-- Observable features of a fetched catalog page, as
`BookParser.make_book` queries them through BeautifulSoup: HTTP status,
the text of the `h1.current-issue__title` element, presence of the
`i.icon-lock` marker, the texts of the `span.hlFld-ContribAuthor`
elements in document order, the `div.issue-item__content` blocks (each
with the text of its `div.issue-item__title`, if that element exists),
the text of the page-wide `a[title=PDF]` link, and a complete-book link
that may occur in the markup but is never queried by `make_book`. -/
structure CatalogPage where
  status : Nat
  title : Option String
  hasLockIcon : Bool
  authors : List String
  sections : List (Option String)
  pdfLink : Option String
  completeBookLink : Option String
  deriving Repr, DecidableEq

/-- Python `url.rsplit("/", 1)[1]`: the part after the last slash. -/
def lastPathSegment (url : String) : String :=
  ⟨(splitAll '/' url.data).getLast?.getD []⟩

/-- Python `sep.join(parts)`. -/
def joinSep (sep : String) : List String → String
  | [] => ""
  | [s] => s
  | s :: rest => s ++ sep ++ joinSep sep rest

/-- The chapter-extraction loop of `make_book`: every
`div.issue-item__content` section must have a title element and the
page-wide `a[title=PDF]` link must exist, otherwise the whole resolve
fails; the chapter stores the link element's text. -/
def chapterList (page : CatalogPage) : Except PyExc (List Chapter) :=
  page.sections.mapM (fun sec =>
    match sec, page.pdfLink with
    | some ct, some href => .ok ⟨ct, some href, none⟩
    | _, _ => .error (.metaError "could not retrieve chapter list"))

/-- Embedding of `BookParser.make_book` from
`hanser_py_library/hanser.py`.  Control flow reproduced from the source:
the 404/500 status check comes first and raises AccessError with the URL
and status code; a missing title raises MetaError; the lock-icon check
follows title extraction and raises AccessError quoting the stripped
title; the `author_search is None` guard of the source can never fire
(BeautifulSoup `find_all` returns a list, never `None`), so an empty
author collection falls through to `author_list[0]`, which is Python
list indexing and raises IndexError; finally the chapter list is built
and the Book assembled.  No download happens anywhere in this
function. -/
def make_book (url : String) (page : CatalogPage) : Except PyExc Book :=
  let isbn := lastPathSegment url
  if page.status = 404 ∨ page.status = 500 then
    .error (.accessError (url ++ " returned " ++ toString page.status))
  else
    match page.title with
    | none => .error (.metaError "no title found")
    | some t =>
      let title := pyStrip t
      if page.hasLockIcon then
        .error (.accessError ("unauthorized to download '" ++ title ++ "'"))
      else
        let author_list := page.authors.map pyStrip
        match author_list with
        | [] => .error (.indexError "list index out of range")
        | a0 :: rest =>
          let authors :=
            if rest.isEmpty then a0
            else joinSep "," author_list.dropLast ++ " and "
              ++ (author_list.getLast?.getD "")
          match chapterList page with
          | .error e => .error e
          | .ok chapters => .ok ⟨url, authors, chapters, isbn, title⟩

/-- Tester for the MetaError kind of a resolver result. -/
def isMetaErrorB (r : Except PyExc Book) : Bool :=
  match r with
  | .error (.metaError _) => true
  | _ => false

/-- Claim C3 (confirmed): on a resolved page — the fetch succeeded (status
neither 404 nor 500) and a title was found — that carries the lock
marker, `make_book` raises AccessError whose message quotes the resolved
(stripped) title.  The result is this error whatever the rest of the page
contains, in particular whatever `completeBookLink` is, so access denial
takes precedence over any download-mode decision; `make_book` performs no
download at all, so none is attempted for such a page. -/
theorem C3_access_error_precedence (url : String) (page : CatalogPage)
    (t : String)
    (h4 : page.status ≠ 404) (h5 : page.status ≠ 500)
    (ht : page.title = some t) (hl : page.hasLockIcon = true) :
    make_book url page
      = .error (.accessError ("unauthorized to download '" ++ pyStrip t ++ "'")) := by
  unfold make_book
  rw [if_neg (fun h => h.elim h4 h5), ht]
  simp [hl]

/-- Fixture for claim C3: a successfully fetched page that offers both a
complete-book link and the lock marker. -/
def lockedPage : CatalogPage :=
  ⟨200, some " Example Book ", true, ["Ann Author"], [some "One"],
    some "/epdf/1", some "/pdf/complete"⟩

theorem C3_access_error_precedence_witness :
    (200 : Nat) ≠ 404 ∧ (200 : Nat) ≠ 500 ∧
    make_book "https://www.hanser-elibrary.com/isbn/9783446450521" lockedPage
      = .error (.accessError "unauthorized to download 'Example Book'") :=
  ⟨by decide, by decide,
    C3_access_error_precedence "https://www.hanser-elibrary.com/isbn/9783446450521"
      lockedPage " Example Book " (by decide) (by decide) rfl rfl⟩

/-- Fixture for claim C7: a 404 response page. -/
def notFoundPage : CatalogPage := ⟨404, none, false, [], [], none, none⟩

/-- Counterexample to claim C7 as stated: a 404 metadata response makes
`make_book` raise AccessError (carrying the URL and the status code), not
a MetaError reporting that no book was found for the identifier. -/
theorem C7_counterexample :
    make_book "https://www.hanser-elibrary.com/isbn/9783446450521" notFoundPage
      = .error (.accessError
          "https://www.hanser-elibrary.com/isbn/9783446450521 returned 404") ∧
    isMetaErrorB
      (make_book "https://www.hanser-elibrary.com/isbn/9783446450521" notFoundPage)
      = false := by
  refine ⟨by decide, by decide⟩

/-- Claim C7 as amended: a metadata fetch that returns status 404 — or
500, the only two statuses the source checks — makes `make_book` raise
AccessError whose message carries the URL and the status code; no other
status triggers a status-based error (parsing proceeds on the response
body), and connection-level failures are not wrapped into any
application error. -/
theorem C7_amended (url : String) (page : CatalogPage)
    (h : page.status = 404 ∨ page.status = 500) :
    make_book url page
      = .error (.accessError (url ++ " returned " ++ toString page.status)) := by
  unfold make_book
  rw [if_pos h]

theorem C7_amended_witness :
    ((404 : Nat) = 404 ∨ (404 : Nat) = 500) ∧
    make_book "https://www.hanser-elibrary.com/isbn/9783446450521" notFoundPage
      = .error (.accessError
          "https://www.hanser-elibrary.com/isbn/9783446450521 returned 404") :=
  ⟨Or.inl rfl,
    C7_amended "https://www.hanser-elibrary.com/isbn/9783446450521" notFoundPage
      (Or.inl rfl)⟩

/-- Fixture for claim C8: a resolved page with an empty author
collection. -/
def noAuthorsPage : CatalogPage :=
  ⟨200, some "Example", false, [], [some "One"], some "/pdf/1", none⟩

/-- Claim C8 names the intended behavior, but the code is buggy:
BeautifulSoup `find_all` returns a list and never `None`, so the
`author_search is None` guard that would raise MetaError("authors not
found") is dead code; with an empty author collection the source instead
reaches `author_list[0]` and raises IndexError.  This theorem evaluates
`make_book` at such a page. -/
theorem C8_code_bug_eval :
    make_book "https://www.hanser-elibrary.com/isbn/9783446450521" noAuthorsPage
      = .error (.indexError "list index out of range") := by
  decide

/-- An HTTP response as `Application.download_book` observes it: status
code, the raw Content-Type header value, and the payload, modeled by the
page list PyPDF2 would parse from the downloaded bytes. -/
structure HttpResponse where
  status : Nat
  contentType : String
  body : List Nat
  deriving Repr, DecidableEq

/-- Restricted model of `urllib.parse.urljoin` for the link shapes the
catalog serves against the base `HANSER_URL` (whose path is empty):
absolute URLs are kept, root-relative hrefs are attached to the host, and
other hrefs become the base's path. -/
def urljoin (base href : String) : String :=
  if "https://".data.isPrefixOf href.data || "http://".data.isPrefixOf href.data then
    href
  else if "/".data.isPrefixOf href.data then base ++ href
  else base ++ "/" ++ href

/-- Python `headers["Content-Type"].split(";", 1)[0]`: the declared
content type truncated at the first semicolon. -/
def contentTypeMain (ct : String) : String :=
  match splitFirst ';' ct.data with
  | some p => ⟨p.1⟩
  | none => ct

/-- One iteration of the loop in `Application.download_book` from
`hanser_py_library/hanser.py`: fetch the chapter's href joined onto
`HANSER_URL` (with `download=true`), and populate the chapter's content
on a 200 response with content type `application/pdf`; a 200 response
with any other content type raises DownloadError naming the URL and the
received type, and any non-200 status raises DownloadError naming the
URL and the status code.  The href default covers `None` only formally:
chapters built by the resolver always carry a link. -/
def download_chapter_step (fetch : String → HttpResponse) (ch : Chapter) :
    Except PyExc Chapter :=
  let url := urljoin HANSER_URL (ch.href.getD "")
  let download := fetch url
  let content := contentTypeMain download.contentType
  if download.status = 200 then
    if content = "application/pdf" then
      .ok { ch with content := some download.body }
    else
      .error (.downloadError
        ("'" ++ url ++ "' sent " ++ content ++ " not 'application/pdf'"))
  else
    .error (.downloadError
      ("'" ++ url ++ "' Response Code: " ++ toString download.status))

/-- The full download loop of `Application.download_book`: chapters are
processed sequentially in document order and the first failure aborts the
whole download. -/
def download_book (fetch : String → HttpResponse) :
    List Chapter → Except PyExc (List Chapter)
  | [] => .ok []
  | ch :: rest =>
    match download_chapter_step fetch ch with
    | .error e => .error e
    | .ok c2 =>
      match download_book fetch rest with
      | .error e => .error e
      | .ok cs => .ok (c2 :: cs)

/-- Claim C9 as amended: a 200 response (the source tests `== 200`, not
the whole 2xx class) whose declared content type — the Content-Type
header truncated at the first semicolon — is not `application/pdf` makes
the download step raise DownloadError whose message names the requested
URL and the received content type; the result is an error, so the
chapter's content is not populated. -/
theorem C9_amended (fetch : String → HttpResponse) (ch : Chapter)
    (h200 : (fetch (urljoin HANSER_URL (ch.href.getD ""))).status = 200)
    (hct : contentTypeMain
        (fetch (urljoin HANSER_URL (ch.href.getD ""))).contentType
        ≠ "application/pdf") :
    download_chapter_step fetch ch
      = .error (.downloadError
          ("'" ++ urljoin HANSER_URL (ch.href.getD "") ++ "' sent "
            ++ contentTypeMain
                 (fetch (urljoin HANSER_URL (ch.href.getD ""))).contentType
            ++ " not 'application/pdf'")) := by
  unfold download_chapter_step
  rw [if_pos h200, if_neg hct]

theorem C9_amended_witness :
    ((fun _ => (⟨200, "text/html; charset=utf-8", []⟩ : HttpResponse))
        (urljoin HANSER_URL "/epdf/1")).status = 200 ∧
    download_chapter_step (fun _ => ⟨200, "text/html; charset=utf-8", []⟩)
        ⟨"Intro", some "/epdf/1", none⟩
      = .error (.downloadError
          "'https://www.hanser-elibrary.com/epdf/1' sent text/html not 'application/pdf'") :=
  ⟨rfl,
    C9_amended (fun _ => ⟨200, "text/html; charset=utf-8", []⟩)
      ⟨"Intro", some "/epdf/1", none⟩ (by decide) (by decide)⟩

/-- Counterexample to claim C9 as stated: a 201 response — a 2xx status —
with content type `text/html` is reported through the status-code branch,
whose DownloadError message carries the URL and the code but does not
mention the received content type anywhere. -/
theorem C9_counterexample :
    download_chapter_step (fun _ => ⟨201, "text/html", []⟩)
        ⟨"Intro", some "/epdf/1", none⟩
      = .error (.downloadError
          "'https://www.hanser-elibrary.com/epdf/1' Response Code: 201") ∧
    ¬ List.IsInfix "text/html".data
        "'https://www.hanser-elibrary.com/epdf/1' Response Code: 201".data := by
  refine ⟨by decide, by decide⟩

/-- Outcome the operating system reports for one attempted PDF write.
`FileNotFoundError` and `PermissionError` are both subclasses of
`OSError` in Python 3, so `except (FileNotFoundError, OSError)` catches
every non-ok outcome below; only `ok` means the file was created. -/
inductive WriteOutcome where
  | ok
  | fileNotFound
  | invalidName
  | permissionError
  deriving Repr, DecidableEq

/-- Python exception-class name of a failed write outcome, used when the
exception escapes uncaught. -/
def writeExcName : WriteOutcome → String
  | .ok => "no error"
  | .fileNotFound => "FileNotFoundError"
  | .invalidName => "OSError"
  | .permissionError => "PermissionError"

/-- The `Application` state that `merge_and_write_pdf` reads: resolved
title, isbn (taken from the URL), output directory and chapter list. -/
structure AppState where
  title : String
  isbn : String
  output_dir : String
  chapters : List Chapter
  deriving Repr, DecidableEq

/-- Python `os.path.join(dir, name)`. -/
def pathJoin (dir name : String) : String := dir ++ "/" ++ name

/-- Page count of the merged document: `PdfFileMerger.append` adds every
chapter stream's pages in order, so `len(merged_pdf.pages)` is the sum of
the chapters' page counts.  Content `none` cannot occur at merge time:
the orchestrator populates every chapter before merging. -/
def mergerPageCount (chs : List Chapter) : Nat :=
  (chs.map (fun c => (c.content.getD []).length)).sum

/-- Embedding of `Application._write_pdf`: the filename defaults to the
resolved title when the argument is missing or empty (Python falsiness),
and the target path is `<output_dir>/<filename>.pdf`. -/
def write_pdf_path (st : AppState) (filename : Option String) : String :=
  let f :=
    match filename with
    | none => st.title
    | some s => if s = "" then st.title else s
  pathJoin st.output_dir (f ++ ".pdf")

/-- Embedding of `Application.merge_and_write_pdf` from
`hanser_py_library/hanser.py`, with the operating system modeled as an
oracle answering each attempted write path; the result pairs the Python
outcome with the list of files actually created.  Control flow from the
source: an empty chapter list raises `MergeError("No PDFs to merge.")`;
a merged document with zero pages raises `MergeError("No book to
save.")`; otherwise the book is written as `<title>.pdf`, one failure of
any OSError kind — `except (FileNotFoundError, OSError)` also catches
PermissionError — triggers a single retry as `<isbn>.pdf`, and a failure
of the retry escapes as the OS exception.  The `os.makedirs` call for a
forced output directory affects neither branch and is not modeled. -/
def merge_and_write_pdf (os : String → WriteOutcome) (st : AppState) :
    Except PyExc Unit × List String :=
  if st.chapters.isEmpty then
    (.error (.mergeError "No PDFs to merge."), [])
  else if mergerPageCount st.chapters = 0 then
    (.error (.mergeError "No book to save."), [])
  else
    let p1 := write_pdf_path st none
    if os p1 = .ok then (.ok (), [p1])
    else
      let p2 := write_pdf_path st (some st.isbn)
      if os p2 = .ok then (.ok (), [p2])
      else (.error (.osError (writeExcName (os p2))), [])

/-- Claim C4 (confirmed): whenever the assembled document has page count
zero — which covers both the empty chapter list and the all-chapters-empty
case — `merge_and_write_pdf` raises MergeError (with the source's message
for the branch taken) and creates no file. -/
theorem C4_empty_merge_rejected (os : String → WriteOutcome) (st : AppState)
    (h : mergerPageCount st.chapters = 0) :
    merge_and_write_pdf os st
      = (.error (.mergeError
          (if st.chapters.isEmpty then "No PDFs to merge." else "No book to save.")),
         []) := by
  unfold merge_and_write_pdf
  by_cases he : st.chapters.isEmpty
  · rw [if_pos he, if_pos he]
  · rw [if_neg he, if_pos h, if_neg he]

/-- Fixture for claim C4: a book with one chapter whose content
contributes zero pages. -/
def emptyPagesState : AppState :=
  ⟨"Example", "3446450521", "out", [⟨"One", some "/pdf/1", some []⟩]⟩

theorem C4_empty_merge_rejected_witness :
    mergerPageCount emptyPagesState.chapters = 0 ∧
    merge_and_write_pdf (fun _ => .ok) emptyPagesState
      = (.error (.mergeError "No book to save."), []) :=
  ⟨by decide, C4_empty_merge_rejected (fun _ => .ok) emptyPagesState (by decide)⟩

/-- Fixture for claims C5 and C6: a resolved one-page book. -/
def bookState : AppState :=
  ⟨"Example", "3446450521", "out", [⟨"One", some "/pdf/1", some [1]⟩]⟩

/-- An OS in which writing the primary file name is denied for lack of
permissions and every other write succeeds. -/
def permDenyPrimary : String → WriteOutcome :=
  fun p => if p = "out/Example.pdf" then .permissionError else .ok

/-- Counterexample to claim C6 as stated: the primary write fails with
PermissionError — an insufficient-permissions error, for which the claim
forbids a retry — yet the source retries anyway, because
`except (FileNotFoundError, OSError)` also catches PermissionError (a
subclass of OSError); moreover the fallback filename is `<isbn>.pdf`
(`out/3446450521.pdf` here), not `ISBN_<isbn>-<year>.pdf` (this Book
carries no year at all), and the write then succeeds. -/
theorem C6_counterexample :
    merge_and_write_pdf permDenyPrimary bookState
      = (.ok (), ["out/3446450521.pdf"]) := by
  decide

/-- Claim C6 as amended: when the primary `<title>.pdf` write fails with
any OSError kind — invalid filename, file-not-found, and also
insufficient permissions — exactly one retry is made as `<isbn>.pdf`; if
the retry succeeds no exception escapes and exactly that file is
created, and if the retry also fails the OS exception propagates (no
MergeError is raised) with no file created. -/
theorem C6_amended (os : String → WriteOutcome) (st : AppState)
    (hne : st.chapters.isEmpty = false)
    (hp : mergerPageCount st.chapters ≠ 0)
    (hfail : os (write_pdf_path st none) ≠ .ok) :
    (os (write_pdf_path st (some st.isbn)) = .ok →
      merge_and_write_pdf os st
        = (.ok (), [write_pdf_path st (some st.isbn)])) ∧
    (os (write_pdf_path st (some st.isbn)) ≠ .ok →
      merge_and_write_pdf os st
        = (.error (.osError
            (writeExcName (os (write_pdf_path st (some st.isbn))))), [])) := by
  constructor <;> intro h2 <;> unfold merge_and_write_pdf <;>
    rw [if_neg (by simp [hne]), if_neg hp, if_neg hfail]
  · rw [if_pos h2]
  · rw [if_neg h2]

/-- An OS in which the primary file name is rejected as invalid and every
other write succeeds. -/
def invalidNamePrimary : String → WriteOutcome :=
  fun p => if p = "out/Example.pdf" then .invalidName else .ok

theorem C6_amended_witness :
    bookState.chapters.isEmpty = false ∧
    mergerPageCount bookState.chapters ≠ 0 ∧
    invalidNamePrimary (write_pdf_path bookState none) ≠ .ok ∧
    merge_and_write_pdf invalidNamePrimary bookState
      = (.ok (), ["out/3446450521.pdf"]) :=
  ⟨by decide, by decide, by decide,
    (C6_amended invalidNamePrimary bookState (by decide) (by decide)
      (by decide)).1 (by decide)⟩

/-- Python `s.rsplit(sep, 1)` as a split at the last occurrence of `sep`:
`some (before, after)` when `sep` occurs, `none` when it does not (in
which case Python returns the one-element list `[s]`). -/
def rsplitLast (sep : Char) : List Char → Option (List Char × List Char)
  | [] => none
  | c :: cs =>
    match rsplitLast sep cs with
    | some p => some (c :: p.1, p.2)
    | none => if c = sep then some ([], cs) else none

/-- Decimal digits of `n`, least significant first, computed with explicit
structural fuel; fuel `n` suffices for every `n`. -/
def digitsRev : Nat → Nat → List Nat
  | 0, _ => []
  | fuel + 1, n => if n = 0 then [] else n % 10 :: digitsRev fuel (n / 10)

/-- Python `str(count)` for the positive loop counter: decimal digit
characters, most significant first. -/
def countStr (n : Nat) : List Char :=
  (digitsRev n n).reverse.map (fun d => Char.ofNat (48 + d))

/-- Python `names[0].rsplit("(", 1)[0]`: the part before the last opening
parenthesis, or the whole string when there is none. -/
def stemBase (s : List Char) : List Char :=
  match rsplitLast '(' s with
  | some p => p.1
  | none => s

/-- One renaming step of `PdfManager.append_file_count` from
`hanser_py_library/core/utils.py`: split the previous candidate at its
last dot into stem and extension (or keep it whole when it has no dot);
on the first collision append a literal `" (1)"` to the stem, afterwards
replace everything from the stem's last opening parenthesis on by
`"(count)"`; rejoin stem and extension with a dot. -/
def nextName (count : Nat) (dest : List Char) : List Char :=
  match rsplitLast '.' dest with
  | some p =>
    (if count = 1 then p.1 ++ [' ', '(', '1', ')']
     else stemBase p.1 ++ '(' :: (countStr count ++ [')'])) ++ '.' :: p.2
  | none =>
    if count = 1 then dest ++ [' ', '(', '1', ')']
    else stemBase dest ++ '(' :: (countStr count ++ [')'])

/-- The `while True` loop of `PdfManager.append_file_count` with explicit
fuel; `none` means the fuel ran out before the loop exited.  `fs` is the
set of files existing in the destination directory, modeling
`os.path.isfile` (the loop itself never writes, so the set is stable
while it runs).  The body comes from the source: while the candidate
names an existing file, increment the counter and rename. -/
def append_file_count_aux (fs : List (List Char)) :
    Nat → Nat → List Char → Option (List Char)
  | 0, _, _ => none
  | fuel + 1, count, dest =>
    if dest ∈ fs then
      append_file_count_aux fs fuel (count + 1) (nextName (count + 1) dest)
    else some dest

/-- `PdfManager.append_file_count` on a directory whose existing files are
`fs`, run with the given fuel (the loop counter starts at 0). -/
def append_file_count (fs : List (List Char)) (fuel : Nat) (dest : List Char) :
    Option (List Char) :=
  append_file_count_aux fs fuel 0 dest

/-- The sequence of candidate names the loop visits: the original
destination, then each renaming in turn. -/
def candidate (dest : List Char) : Nat → List Char
  | 0 => dest
  | k + 1 => nextName (k + 1) (candidate dest k)

theorem rsplitLast_eq_none {sep : Char} :
    ∀ {l : List Char}, sep ∉ l → rsplitLast sep l = none
  | [], _ => rfl
  | c :: cs, h => by
    have hc : ¬(c = sep) := fun e => h (e ▸ List.mem_cons_self c cs)
    have ht : sep ∉ cs := fun m => h (List.mem_cons_of_mem _ m)
    unfold rsplitLast
    rw [rsplitLast_eq_none ht, if_neg hc]

theorem not_mem_of_rsplitLast_eq_none {sep : Char} :
    ∀ {l : List Char}, rsplitLast sep l = none → sep ∉ l
  | [], _ => by simp
  | c :: cs, h => by
    unfold rsplitLast at h
    cases hr : rsplitLast sep cs with
    | some p => rw [hr] at h; exact absurd h (by simp)
    | none =>
      rw [hr] at h
      by_cases hc : c = sep
      · rw [if_pos hc] at h; exact absurd h (by simp)
      · have ht := not_mem_of_rsplitLast_eq_none hr
        intro hmem
        rcases List.mem_cons.1 hmem with h1 | h1
        · exact hc h1.symm
        · exact ht h1

theorem rsplitLast_append {sep : Char} (ys : List Char) (hys : sep ∉ ys) :
    ∀ xs : List Char, rsplitLast sep (xs ++ sep :: ys) = some (xs, ys)
  | [] => by
    rw [List.nil_append]
    unfold rsplitLast
    rw [rsplitLast_eq_none hys, if_pos rfl]
  | x :: xs => by
    have ih := rsplitLast_append ys hys xs
    rw [List.cons_append]
    unfold rsplitLast
    rw [ih]

theorem rsplitLast_spec {sep : Char} :
    ∀ {l a b : List Char}, rsplitLast sep l = some (a, b) →
      l = a ++ sep :: b ∧ sep ∉ b := by
  intro l
  induction l with
  | nil => intro a b h; exact absurd h (by simp [rsplitLast])
  | cons c cs ih =>
    intro a b h
    unfold rsplitLast at h
    cases hr : rsplitLast sep cs with
    | some q =>
      obtain ⟨qa, qb⟩ := q
      rw [hr] at h
      simp only [Option.some.injEq, Prod.mk.injEq] at h
      obtain ⟨ha, hb⟩ := h
      obtain ⟨h1, h2⟩ := ih hr
      subst ha; subst hb
      exact ⟨by rw [List.cons_append, ← h1], h2⟩
    | none =>
      rw [hr] at h
      by_cases hc : c = sep
      · rw [if_pos hc] at h
        simp only [Option.some.injEq, Prod.mk.injEq] at h
        obtain ⟨ha, hb⟩ := h
        subst ha; subst hb
        exact ⟨by rw [hc]; rfl, not_mem_of_rsplitLast_eq_none hr⟩
      · rw [if_neg hc] at h
        exact absurd h (by simp)

theorem digitsRev_lt : ∀ (fuel n : Nat), ∀ d ∈ digitsRev fuel n, d < 10 := by
  intro fuel
  induction fuel with
  | zero => intro n d hd; exact absurd hd (by simp [digitsRev])
  | succ fuel ih =>
    intro n d hd
    unfold digitsRev at hd
    by_cases h : n = 0
    · rw [if_pos h] at hd; exact absurd hd (by simp)
    · rw [if_neg h] at hd
      rcases List.mem_cons.1 hd with h1 | h1
      · subst h1; exact Nat.mod_lt _ (by norm_num)
      · exact ih _ _ h1

/-- Value of a least-significant-first digit list. -/
def digitsVal (l : List Nat) : Nat := l.foldr (fun d acc => d + 10 * acc) 0

theorem digitsVal_digitsRev : ∀ (fuel n : Nat), n ≤ fuel →
    digitsVal (digitsRev fuel n) = n := by
  intro fuel
  induction fuel with
  | zero =>
    intro n h
    have : n = 0 := Nat.le_zero.1 h
    subst this
    rfl
  | succ fuel ih =>
    intro n h
    unfold digitsRev
    by_cases hn : n = 0
    · rw [if_pos hn, hn]; rfl
    · rw [if_neg hn]
      have hdiv : n / 10 ≤ fuel := by
        have := Nat.div_lt_self (Nat.pos_of_ne_zero hn) (by norm_num : 1 < 10)
        omega
      show n % 10 + 10 * digitsVal (digitsRev fuel (n / 10)) = n
      rw [ih _ hdiv]
      omega

theorem charOfNat_toNat {d : Nat} (h : d < 10) :
    (Char.ofNat (48 + d)).toNat = 48 + d := by
  interval_cases d <;> decide

theorem countStr_inj {m n : Nat} (h : countStr m = countStr n) : m = n := by
  have h2 := congrArg (List.map Char.toNat) h
  rw [countStr, countStr, List.map_map, List.map_map] at h2
  have e1 : (digitsRev m m).reverse.map (Char.toNat ∘ fun d => Char.ofNat (48 + d))
      = (digitsRev m m).reverse.map (fun d => 48 + d) :=
    List.map_congr_left (fun d hd =>
      charOfNat_toNat (digitsRev_lt _ _ d (List.mem_reverse.1 hd)))
  have e2 : (digitsRev n n).reverse.map (Char.toNat ∘ fun d => Char.ofNat (48 + d))
      = (digitsRev n n).reverse.map (fun d => 48 + d) :=
    List.map_congr_left (fun d hd =>
      charOfNat_toNat (digitsRev_lt _ _ d (List.mem_reverse.1 hd)))
  rw [e1, e2] at h2
  have hinj : Function.Injective (fun d : Nat => 48 + d) := by
    intro a b hab
    have hab2 : 48 + a = 48 + b := hab
    omega
  have h3 : (digitsRev m m).reverse = (digitsRev n n).reverse :=
    List.map_injective_iff.2 hinj h2
  have h4 : digitsRev m m = digitsRev n n := List.reverse_injective h3
  have hm := digitsVal_digitsRev m m (Nat.le_refl m)
  have hn := digitsVal_digitsRev n n (Nat.le_refl n)
  rw [← hm, ← hn, h4]

theorem countStr_mem_range {c : Char} {n : Nat} (h : c ∈ countStr n) :
    48 ≤ c.toNat ∧ c.toNat ≤ 57 := by
  rw [countStr] at h
  obtain ⟨d, hd, he⟩ := List.mem_map.1 h
  have hlt := digitsRev_lt n n d (List.mem_reverse.1 hd)
  have : c.toNat = 48 + d := by rw [← he, charOfNat_toNat hlt]
  omega

theorem paren_not_mem_countStr (n : Nat) : '(' ∉ countStr n := by
  intro h
  have := countStr_mem_range h
  revert this
  decide

theorem dot_not_mem_countStr (n : Nat) : '.' ∉ countStr n := by
  intro h
  have := countStr_mem_range h
  revert this
  decide

theorem countStr_one : countStr 1 = ['1'] := by decide

theorem paren_not_mem_countStr_paren (k : Nat) : '(' ∉ countStr k ++ [')'] := by
  intro hm
  rcases List.mem_append.1 hm with hm | hm
  · exact paren_not_mem_countStr k hm
  · exact absurd hm (by decide)

theorem stemBase_append (a b : List Char) (hb : '(' ∉ b) :
    stemBase (a ++ '(' :: b) = a := by
  unfold stemBase
  rw [rsplitLast_append b hb a]

theorem nextName_eq_some (count : Nat) (dest stem ext : List Char)
    (h : rsplitLast '.' dest = some (stem, ext)) :
    nextName count dest
      = (if count = 1 then stem ++ [' ', '(', '1', ')']
         else stemBase stem ++ '(' :: (countStr count ++ [')'])) ++ '.' :: ext := by
  unfold nextName
  rw [h]

theorem nextName_eq_none (count : Nat) (dest : List Char)
    (h : rsplitLast '.' dest = none) :
    nextName count dest
      = if count = 1 then dest ++ [' ', '(', '1', ')']
        else stemBase dest ++ '(' :: (countStr count ++ [')']) := by
  unfold nextName
  rw [h]

theorem candidate_spec_ext (dest stem ext : List Char)
    (hsplit : rsplitLast '.' dest = some (stem, ext)) :
    ∀ k, 1 ≤ k →
      candidate dest k = stem ++ [' ', '('] ++ countStr k ++ [')', '.'] ++ ext := by
  have hext : '.' ∉ ext := (rsplitLast_spec hsplit).2
  intro k hk
  induction k with
  | zero => omega
  | succ k ih =>
    by_cases hk1 : k = 0
    · subst hk1
      show nextName 1 dest = _
      rw [nextName_eq_some 1 dest stem ext hsplit, if_pos rfl]
      simp [List.append_assoc, countStr_one]
    · have hk2 : 1 ≤ k := Nat.one_le_iff_ne_zero.2 hk1
      have ihk := ih hk2
      show nextName (k + 1) (candidate dest k) = _
      rw [ihk]
      have hA : stem ++ [' ', '('] ++ countStr k ++ [')', '.'] ++ ext
          = (stem ++ [' ', '('] ++ countStr k ++ [')']) ++ '.' :: ext := by
        simp [List.append_assoc]
      rw [hA]
      rw [nextName_eq_some (k + 1) _ _ ext
        (rsplitLast_append ext hext (stem ++ [' ', '('] ++ countStr k ++ [')']))]
      rw [if_neg (by omega : ¬(k + 1 = 1))]
      have hB : stem ++ [' ', '('] ++ countStr k ++ [')']
          = (stem ++ [' ']) ++ '(' :: (countStr k ++ [')']) := by
        simp [List.append_assoc]
      rw [hB, stemBase_append _ _ (paren_not_mem_countStr_paren k)]
      simp [List.append_assoc]

theorem candidate_spec_noext (dest : List Char)
    (hnone : rsplitLast '.' dest = none) :
    ∀ k, 1 ≤ k →
      candidate dest k = dest ++ [' ', '('] ++ countStr k ++ [')'] := by
  have hdot : '.' ∉ dest := not_mem_of_rsplitLast_eq_none hnone
  intro k hk
  induction k with
  | zero => omega
  | succ k ih =>
    by_cases hk1 : k = 0
    · subst hk1
      show nextName 1 dest = _
      rw [nextName_eq_none 1 dest hnone, if_pos rfl]
      simp [List.append_assoc, countStr_one]
    · have hk2 : 1 ≤ k := Nat.one_le_iff_ne_zero.2 hk1
      have ihk := ih hk2
      show nextName (k + 1) (candidate dest k) = _
      rw [ihk]
      have hnodot : rsplitLast '.' (dest ++ [' ', '('] ++ countStr k ++ [')']) = none := by
        apply rsplitLast_eq_none
        intro hm
        rcases List.mem_append.1 hm with hm | hm
        · rcases List.mem_append.1 hm with hm2 | hm2
          · rcases List.mem_append.1 hm2 with hm3 | hm3
            · exact hdot hm3
            · exact absurd hm3 (by decide)
          · exact dot_not_mem_countStr k hm2
        · exact absurd hm (by decide)
      rw [nextName_eq_none (k + 1) _ hnodot, if_neg (by omega : ¬(k + 1 = 1))]
      have hB : dest ++ [' ', '('] ++ countStr k ++ [')']
          = (dest ++ [' ']) ++ '(' :: (countStr k ++ [')']) := by
        simp [List.append_assoc]
      rw [hB, stemBase_append _ _ (paren_not_mem_countStr_paren k)]
      simp [List.append_assoc]

theorem candidate_inj (dest : List Char) {k l : Nat} (hk : 1 ≤ k) (hl : 1 ≤ l)
    (h : candidate dest k = candidate dest l) : k = l := by
  cases hs : rsplitLast '.' dest with
  | some p =>
    obtain ⟨stem, ext⟩ := p
    rw [candidate_spec_ext dest stem ext hs k hk,
        candidate_spec_ext dest stem ext hs l hl] at h
    simp only [List.append_assoc] at h
    have h2 := List.append_cancel_left h
    have h3 := List.append_cancel_left h2
    have h4 := List.append_cancel_right h3
    exact countStr_inj h4
  | none =>
    rw [candidate_spec_noext dest hs k hk, candidate_spec_noext dest hs l hl] at h
    simp only [List.append_assoc] at h
    have h2 := List.append_cancel_left h
    have h3 := List.append_cancel_left h2
    have h4 := List.append_cancel_right h3
    exact countStr_inj h4

theorem exists_candidate_not_mem (fs : List (List Char)) (dest : List Char) :
    ∃ k, candidate dest k ∉ fs := by
  by_contra hc
  push_neg at hc
  have hinj : Function.Injective (fun k : Nat => candidate dest (k + 1)) := by
    intro a b hab
    have h := candidate_inj dest (Nat.succ_le_succ (Nat.zero_le a))
      (Nat.succ_le_succ (Nat.zero_le b)) hab
    omega
  have hmem : ∀ k : Nat, candidate dest (k + 1) ∈ {x | x ∈ fs} :=
    fun k => hc (k + 1)
  have hinf : {x : List Char | x ∈ fs}.Infinite :=
    Set.infinite_of_injective_forall_mem hinj hmem
  exact hinf fs.finite_toSet

theorem append_file_count_aux_run (fs : List (List Char)) (dest : List Char)
    (k : Nat)
    (hall : ∀ j, j < k → candidate dest j ∈ fs)
    (hfree : candidate dest k ∉ fs) :
    ∀ n i, i + n = k →
      append_file_count_aux fs (n + 1) i (candidate dest i)
        = some (candidate dest k) := by
  intro n
  induction n with
  | zero =>
    intro i hi
    have hik : i = k := by omega
    subst hik
    unfold append_file_count_aux
    rw [if_neg hfree]
  | succ n ih =>
    intro i hi
    have hik : i < k := by omega
    unfold append_file_count_aux
    rw [if_pos (hall i hik)]
    have e : nextName (i + 1) (candidate dest i) = candidate dest (i + 1) := rfl
    rw [e]
    exact ih (i + 1) (by omega)

/-- Claim C10 (confirmed): for every destination path and every finite set
of files existing in the destination directory, the collision-renaming
loop of `PdfManager.append_file_count` terminates — some finite fuel makes
the fuelled loop exit on its own — and the path it returns does not name
an existing file. -/
theorem C10_append_file_count_terminates (fs : List (List Char)) (dest : List Char) :
    ∃ fuel r, append_file_count fs fuel dest = some r ∧ r ∉ fs := by
  have hex : ∃ k, candidate dest k ∉ fs := exists_candidate_not_mem fs dest
  have hfree : candidate dest (Nat.find hex) ∉ fs := Nat.find_spec hex
  have hall : ∀ j, j < Nat.find hex → candidate dest j ∈ fs := fun j hj =>
    not_not.1 (Nat.find_min hex hj)
  refine ⟨Nat.find hex + 1, candidate dest (Nat.find hex), ?_, hfree⟩
  exact append_file_count_aux_run fs dest (Nat.find hex) hall hfree
    (Nat.find hex) 0 (by omega)

/-- The file names claim C5 speaks about: `<name>.pdf` and its
counter-renamed variants `<name> (j).pdf`. -/
def pdfName (name : List Char) : Nat → List Char
  | 0 => name ++ ['.', 'p', 'd', 'f']
  | j + 1 => name ++ [' ', '('] ++ countStr (j + 1) ++ [')', '.', 'p', 'd', 'f']

theorem candidate_pdfName (name : List Char) :
    ∀ j, candidate (pdfName name 0) j = pdfName name j := by
  intro j
  cases j with
  | zero => rfl
  | succ j =>
    have hsplit : rsplitLast '.' (pdfName name 0) = some (name, ['p', 'd', 'f']) := by
      show rsplitLast '.' (name ++ '.' :: ['p', 'd', 'f']) = _
      exact rsplitLast_append _ (by decide) name
    rw [candidate_spec_ext (pdfName name 0) name ['p', 'd', 'f'] hsplit (j + 1)
      (by omega)]
    show name ++ [' ', '('] ++ countStr (j + 1) ++ [')', '.'] ++ ['p', 'd', 'f']
      = pdfName name (j + 1)
    unfold pdfName
    simp [List.append_assoc]

/-- Claim C5 (confirmed): name collisions are resolved before writing.  If
`<name>.pdf` through `<name> (k).pdf` all exist and `<name> (k+1).pdf`
does not, the loop returns `<name> (k+1).pdf` (with `k = 0` this is the
first-collision case producing `<name> (1).pdf`, so writing the same book
twice yields the original name and then the `(1)` variant); the returned
name never belongs to the existing files, so no existing file is
overwritten; and when the requested name does not exist it is returned
unchanged. -/
theorem C5_collision_counter (name : List Char) (fs : List (List Char)) (k : Nat)
    (hin : ∀ j, j ≤ k → pdfName name j ∈ fs)
    (hout : pdfName name (k + 1) ∉ fs) :
    append_file_count fs (k + 2) (pdfName name 0) = some (pdfName name (k + 1)) ∧
    pdfName name (k + 1) ∉ fs ∧
    (∀ (dest : List Char) (fuel : Nat), dest ∉ fs →
      append_file_count fs (fuel + 1) dest = some dest) := by
  refine ⟨?_, hout, ?_⟩
  · have hall : ∀ j, j < k + 1 → candidate (pdfName name 0) j ∈ fs := by
      intro j hj
      rw [candidate_pdfName]
      exact hin j (by omega)
    have hfree : candidate (pdfName name 0) (k + 1) ∉ fs := by
      rw [candidate_pdfName]
      exact hout
    have hrun := append_file_count_aux_run fs (pdfName name 0) (k + 1) hall hfree
      (k + 1) 0 (by omega)
    rw [candidate_pdfName name 0, candidate_pdfName name (k + 1)] at hrun
    exact hrun
  · intro dest fuel hdest
    unfold append_file_count append_file_count_aux
    rw [if_neg hdest]

theorem C5_collision_counter_witness :
    (∀ j, j ≤ 0 → pdfName "Title-2019".data j ∈ ["Title-2019.pdf".data]) ∧
    pdfName "Title-2019".data 1 ∉ ["Title-2019.pdf".data] ∧
    append_file_count ["Title-2019.pdf".data] 2 (pdfName "Title-2019".data 0)
      = some (pdfName "Title-2019".data 1) ∧
    pdfName "Title-2019".data 1 = "Title-2019 (1).pdf".data := by
  have h1 : ∀ j, j ≤ 0 → pdfName "Title-2019".data j ∈ ["Title-2019.pdf".data] := by
    intro j hj
    have hj0 : j = 0 := Nat.le_zero.1 hj
    subst hj0
    decide
  have h2 : pdfName "Title-2019".data 1 ∉ ["Title-2019.pdf".data] := by decide
  exact ⟨h1, h2,
    (C5_collision_counter "Title-2019".data ["Title-2019.pdf".data] 0 h1 h2).1,
    by decide⟩
